import Mathlib

/-!
Shallow embedding of the `extio` crate (src/lib.rs and src/main.rs).

The crate declares one trait, `Extio`, with 29 methods. Every method except
`now` has a default body `unimplemented!("<method> not implemented")`, which
in Rust panics with that message; `now`'s default body is
`SystemTime::now()`. The binary defines a reference backend `MyInterface`
overriding only `http_request`, with error type `MyError` (single variant
`Reqwest`).

Modelling choices, uniform throughout:
- byte buffers (`Vec<u8>`, `&[u8]`, `Bytes`) are `List Nat`;
- paths, keys, URIs, queries, channel/topic names are `String`;
- `Duration` and `SystemTime` are `Nat`; `SystemTime::now()` is modelled by
  passing the ambient wall-clock reading to `now` as an explicit argument,
  so the default body returns exactly that reading;
- `f64` (the metric value) is an inert `Float` payload, never inspected;
- a Rust panic is an explicit `panic` constructor carrying the panic
  message, so `Result<T, E>` in a method position becomes `Outcome ε τ`
  (panic, ok, or err) and an infallible return type `T` becomes
  `PanicOr τ` (panic or ok) — Rust panics are possible in any method body,
  but an `Err` value only where the return type is `Result`;
- `async fn` methods return through the `Async` marker, recording the
  suspension classification in the field's type, fixed for all backends;
- the trait bound `type Error: Debug + Send + Sync + 'static` is modelled
  by the `DebugFmt` class required by the `Extio` structure (`Send`/`Sync`
  are thread-transfer marker traits with no sequential content);
- the `reqwest` client used by `MyInterface::http_request` is an explicit
  `Transport` oracle: whether `RequestBuilder::build()` fails, and what
  `Client::execute` returns (a status, headers, and the outcome of
  collecting the body bytes).
-/

/-- The `Debug` bound on the associated error type (`type Error:
std::fmt::Debug + Send + Sync + 'static`, src/lib.rs line 17): every
backend's error type comes with a debug formatter, so error values are
inspectable. -/
class DebugFmt (ε : Type) where
  fmt : ε → String

/-- Result of running a Rust body whose return type is `T` (no `Result`):
either the body completes normally with a value, or it panics with a
message (as `unimplemented!` does). -/
inductive PanicOr (α : Type) where
  | panic (msg : String)
  | ok (a : α)
deriving DecidableEq, Repr

/-- Result of running a Rust body whose return type is `Result<T, E>`:
normal completion `ok`, an error value `err` through the error channel, or
a panic. -/
inductive Outcome (ε α : Type) where
  | panic (msg : String)
  | ok (a : α)
  | err (e : ε)
deriving DecidableEq, Repr

/-- The observable shape of one call's outcome, with the success payload
elided: panicked (with which message), completed normally, or reported an
error value through the backend's error channel. -/
inductive Shape (ε : Type) where
  | panic (msg : String)
  | ok
  | err (e : ε)
deriving DecidableEq, Repr

/-- Shape of a `PanicOr` outcome. A `PanicOr` result type has no error
channel, so its shape is never `err`. -/
def PanicOr.shape {ε α : Type} : PanicOr α → Shape ε
  | .panic m => .panic m
  | .ok _ => .ok

/-- Shape of an `Outcome`. -/
def Outcome.shape {ε α : Type} : Outcome ε α → Shape ε
  | .panic m => .panic m
  | .ok _ => .ok
  | .err e => .err e

/-- Marker wrapping the result of an `async fn` trait method. Its presence
in a field's TYPE in `Extio` below records that the method is declared
suspension-capable by the trait itself, identically for every backend. -/
structure Async (α : Type) where
  run : α
deriving DecidableEq, Repr

/-- The structured request taken by `Extio::http_request`
(`http::Request<Vec<u8>>`): method, URI, header list, body bytes. The
`http` crate's `HeaderMap` is a multimap iterated in order; it is modelled
as the ordered list of (name, value) pairs its iterator yields. -/
structure HttpRequest where
  method : String
  uri : String
  headers : List (String × String)
  body : List Nat
deriving DecidableEq, Repr

/-- The structured response returned by `Extio::http_request`
(`http::Response<Vec<u8>>`): status, header list, body bytes. -/
structure HttpResponse where
  status : Nat
  headers : List (String × String)
  body : List Nat
deriving DecidableEq, Repr

/-- The `reqwest::Request` assembled by `MyInterface::http_request` before
execution: method, URL string, accumulated headers, body. -/
structure ReqwestRequest where
  method : String
  url : String
  headers : List (String × String)
  body : List Nat
deriving DecidableEq, Repr

/-- What `reqwest::Client::execute` hands back on success, before the body
is collected: `response.status()`, `response.headers()`, and the outcome
of `response.bytes().await` (which can itself fail mid-stream). -/
structure TransportResponse where
  status : Nat
  headers : List (String × String)
  bytes : Except Unit (List Nat)
deriving Repr

/-- Oracle for the `reqwest` client used by `MyInterface::http_request`:
whether `RequestBuilder::build()` fails on a given assembled request, and
what executing a built request returns (an error, or a response). -/
structure Transport where
  buildFails : ReqwestRequest → Bool
  execute : ReqwestRequest → Except Unit TransportResponse

/-- The reference backend's error type (src/main.rs lines 9-12):
`enum MyError { Reqwest }`. -/
inductive MyError where
  | Reqwest
deriving DecidableEq, Repr

/-- Output of `#[derive(Debug)]` on `MyError`. -/
def MyError.debugFmt : MyError → String
  | .Reqwest => "Reqwest"

instance : DebugFmt MyError where
  fmt := MyError.debugFmt

/-- The `Extio` trait (src/lib.rs lines 15-210) as a structure over the
single associated error type `ε`. Each field is one trait method with its
source signature; each field's DEFAULT VALUE is the method's default body
from the trait declaration: `unimplemented!("<method> not implemented")`
— a panic with that message — for every method except `now`, whose default
body is `SystemTime::now()`, modelled as returning the ambient wall-clock
reading passed in at call time. A backend is a value of this structure; a
backend "overrides" a method by supplying that field, and "has not
overridden" it by leaving the default. -/
structure Extio (ε : Type) [DebugFmt ε] where
  read_file : String → Outcome ε (List Nat) :=
    fun _ => .panic "read_file not implemented"
  write_file : String → List Nat → Outcome ε Unit :=
    fun _ _ => .panic "write_file not implemented"
  delete_file : String → Outcome ε Unit :=
    fun _ => .panic "delete_file not implemented"
  list_dir : String → Outcome ε (List String) :=
    fun _ => .panic "list_dir not implemented"
  storage_put : String → List Nat → Async (Outcome ε Unit) :=
    fun _ _ => ⟨.panic "storage_put not implemented"⟩
  storage_get : String → Async (Outcome ε (List Nat)) :=
    fun _ => ⟨.panic "storage_get not implemented"⟩
  storage_delete : String → Async (Outcome ε Unit) :=
    fun _ => ⟨.panic "storage_delete not implemented"⟩
  http_request : HttpRequest → Async (Outcome ε HttpResponse) :=
    fun _ => ⟨.panic "http_request not implemented"⟩
  tcp_send : String → List Nat → Async (Outcome ε (List Nat)) :=
    fun _ _ => ⟨.panic "tcp_send not implemented"⟩
  udp_send : String → List Nat → Async (Outcome ε Unit) :=
    fun _ _ => ⟨.panic "udp_send not implemented"⟩
  ws_connect : String → Async (Outcome ε Unit) :=
    fun _ => ⟨.panic "ws_connect not implemented"⟩
  ws_send : List Nat → Async (Outcome ε Unit) :=
    fun _ => ⟨.panic "ws_send not implemented"⟩
  ws_receive : Async (Outcome ε (List Nat)) :=
    ⟨.panic "ws_receive not implemented"⟩
  db_query : String → List Nat → Async (Outcome ε (List Nat)) :=
    fun _ _ => ⟨.panic "db_query not implemented"⟩
  db_execute : String → List Nat → Async (Outcome ε Nat) :=
    fun _ _ => ⟨.panic "db_execute not implemented"⟩
  exec : String → List String → Async (Outcome ε (Int × List Nat)) :=
    fun _ _ => ⟨.panic "exec not implemented"⟩
  mq_publish : String → List Nat → Async (Outcome ε Unit) :=
    fun _ _ => ⟨.panic "mq_publish not implemented"⟩
  mq_consume : String → Async (Outcome ε (List Nat)) :=
    fun _ => ⟨.panic "mq_consume not implemented"⟩
  ipc_send : String → List Nat → Async (Outcome ε Unit) :=
    fun _ _ => ⟨.panic "ipc_send not implemented"⟩
  ipc_receive : String → Async (Outcome ε (List Nat)) :=
    fun _ => ⟨.panic "ipc_receive not implemented"⟩
  now : Nat → PanicOr Nat :=
    fun wall => .ok wall
  sleep : Nat → Async (PanicOr Unit) :=
    fun _ => ⟨.panic "sleep not implemented"⟩
  get_env : String → PanicOr (Option String) :=
    fun _ => .panic "get_env not implemented"
  set_env : String → String → PanicOr Unit :=
    fun _ _ => .panic "set_env not implemented"
  log : String → String → PanicOr Unit :=
    fun _ _ => .panic "log not implemented"
  record_metric : String → Float → PanicOr Unit :=
    fun _ _ => .panic "record_metric not implemented"
  get_secret : String → Outcome ε (List Nat) :=
    fun _ => .panic "get_secret not implemented"
  sign : List Nat → Outcome ε (List Nat) :=
    fun _ => .panic "sign not implemented"
  verify : List Nat → List Nat → Outcome ε Bool :=
    fun _ _ => .panic "verify not implemented"

/-- A backend that overrides nothing: every method keeps the trait's
default body. -/
def defaultExtio (ε : Type) [DebugFmt ε] : Extio ε := {}

/-- The `reqwest::Request` assembled by `MyInterface::http_request`
(src/main.rs lines 19-31): `client.request(method, uri)`, then each header
of the incoming request appended in iteration order via
`builder.header(k, v)`, then the body attached. -/
def buildReqwest (req : HttpRequest) : ReqwestRequest :=
  let builder : ReqwestRequest :=
    { method := req.method, url := req.uri, headers := [], body := [] }
  let builder :=
    req.headers.foldl (fun b kv => { b with headers := b.headers ++ [kv] }) builder
  { builder with body := req.body }

/-- The `http::Response` reassembled by `MyInterface::http_request`
(src/main.rs lines 49-55): `Response::builder().status(status)`, then each
header of the transport's response appended in iteration order, then the
collected body bytes attached. The status and headers come from an
already-valid transport response, so the builder cannot reject them; the
`map_err` on `builder.body(bytes)` at line 55 is unreachable in the model. -/
def rebuildResponse (status : Nat) (headers : List (String × String))
    (bytes : List Nat) : HttpResponse :=
  let builder : HttpResponse := { status := status, headers := [], body := [] }
  let builder :=
    headers.foldl (fun r kv => { r with headers := r.headers ++ [kv] }) builder
  { builder with body := bytes }

/-- `MyInterface::http_request` (src/main.rs lines 18-56) against a
transport oracle `t`: assemble the `reqwest` request; if `build()` fails,
`Err(MyError::Reqwest)`; execute it; if execution fails,
`Err(MyError::Reqwest)`; take the status and a clone of the headers;
collect the body bytes; if that fails, `Err(MyError::Reqwest)`; otherwise
rebuild and return the structured response. -/
def MyInterface.http_request (t : Transport) (req : HttpRequest) :
    Outcome MyError HttpResponse :=
  let built := buildReqwest req
  if t.buildFails built then Outcome.err MyError.Reqwest
  else
    match t.execute built with
    | Except.error _ => Outcome.err MyError.Reqwest
    | Except.ok response =>
      let status := response.status
      let headers := response.headers
      match response.bytes with
      | Except.error _ => Outcome.err MyError.Reqwest
      | Except.ok bytes => Outcome.ok (rebuildResponse status headers bytes)

/-- The reference backend `MyInterface` (src/main.rs lines 14-57): it
overrides exactly one method, `http_request`, and leaves every other
method at the trait default. Its `reqwest` client is the transport oracle
`t`. -/
def MyInterface (t : Transport) : Extio MyError :=
  { http_request := fun req => ⟨MyInterface.http_request t req⟩ }

/-- The 29 operations of the `Extio` trait, one constructor per method, in
source order. -/
inductive Op where
  | read_file | write_file | delete_file | list_dir
  | storage_put | storage_get | storage_delete
  | http_request | tcp_send | udp_send
  | ws_connect | ws_send | ws_receive
  | db_query | db_execute
  | exec
  | mq_publish | mq_consume
  | ipc_send | ipc_receive
  | now | sleep
  | get_env | set_env
  | log | record_metric
  | get_secret | sign | verify
deriving DecidableEq, Repr

/-- The method name of each operation, as it appears in the source and in
the `unimplemented!("<name> not implemented")` default messages. -/
def opName : Op → String
  | .read_file => "read_file"
  | .write_file => "write_file"
  | .delete_file => "delete_file"
  | .list_dir => "list_dir"
  | .storage_put => "storage_put"
  | .storage_get => "storage_get"
  | .storage_delete => "storage_delete"
  | .http_request => "http_request"
  | .tcp_send => "tcp_send"
  | .udp_send => "udp_send"
  | .ws_connect => "ws_connect"
  | .ws_send => "ws_send"
  | .ws_receive => "ws_receive"
  | .db_query => "db_query"
  | .db_execute => "db_execute"
  | .exec => "exec"
  | .mq_publish => "mq_publish"
  | .mq_consume => "mq_consume"
  | .ipc_send => "ipc_send"
  | .ipc_receive => "ipc_receive"
  | .now => "now"
  | .sleep => "sleep"
  | .get_env => "get_env"
  | .set_env => "set_env"
  | .log => "log"
  | .record_metric => "record_metric"
  | .get_secret => "get_secret"
  | .sign => "sign"
  | .verify => "verify"

/-- Whether the operation's declared return type in the trait is
`Result<_, Self::Error>` — i.e. whether the operation has the associated
error channel at all. Transcribed from each method signature in
src/lib.rs: `now` returns `SystemTime`, `sleep`/`set_env`/`log`/
`record_metric` return `()`, `get_env` returns `Option<String>`; all
other 23 methods return `Result<_, Self::Error>`. -/
def hasErrorChannel : Op → Bool
  | .now | .sleep | .get_env | .set_env | .log | .record_metric => false
  | _ => true

/-- Suspension classification of an operation. -/
inductive SuspClass where
  | blockingSafe
  | suspensionRequired
deriving DecidableEq, Repr

/-- The contract's suspension classification, transcribed from the trait
declaration in src/lib.rs: a method declared `async fn` is
suspension-required, a plain `fn` is blocking-safe. Being part of the
trait declaration, it is the same for every backend. -/
def contractSuspension : Op → SuspClass
  | .read_file | .write_file | .delete_file | .list_dir => .blockingSafe
  | .now => .blockingSafe
  | .get_env | .set_env => .blockingSafe
  | .log | .record_metric => .blockingSafe
  | .get_secret | .sign | .verify => .blockingSafe
  | _ => .suspensionRequired

/-- Modelled from the spec: the suspension column of the operation table in
spec section 4.1, row by row (file and time-`now` and env and
observability and crypto rows blocking-safe; storage, network, websocket,
database, process, queue, IPC rows and `sleep` suspension-required). -/
def specSuspension : Op → SuspClass
  | .read_file => .blockingSafe
  | .write_file => .blockingSafe
  | .delete_file => .blockingSafe
  | .list_dir => .blockingSafe
  | .storage_put => .suspensionRequired
  | .storage_get => .suspensionRequired
  | .storage_delete => .suspensionRequired
  | .http_request => .suspensionRequired
  | .tcp_send => .suspensionRequired
  | .udp_send => .suspensionRequired
  | .ws_connect => .suspensionRequired
  | .ws_send => .suspensionRequired
  | .ws_receive => .suspensionRequired
  | .db_query => .suspensionRequired
  | .db_execute => .suspensionRequired
  | .exec => .suspensionRequired
  | .mq_publish => .suspensionRequired
  | .mq_consume => .suspensionRequired
  | .ipc_send => .suspensionRequired
  | .ipc_receive => .suspensionRequired
  | .now => .blockingSafe
  | .sleep => .suspensionRequired
  | .get_env => .blockingSafe
  | .set_env => .blockingSafe
  | .log => .blockingSafe
  | .record_metric => .blockingSafe
  | .get_secret => .blockingSafe
  | .sign => .blockingSafe
  | .verify => .blockingSafe

/-- One argument of each type an operation can take, so that any operation
of any backend can be invoked uniformly. -/
structure Args where
  path : String
  data : List Nat
  key : String
  addr : String
  url : String
  req : HttpRequest
  query : String
  params : List Nat
  cmd : String
  argv : List String
  topic : String
  channel : String
  wall : Nat
  dur : Nat
  envKey : String
  envVal : String
  level : String
  msg : String
  metricName : String
  metricValue : Float
  sig : List Nat

/-- Invoke one operation of a backend on the given arguments and observe
the shape of the outcome (awaiting the `async` methods, eliding success
payloads). -/
def invoke {ε : Type} [DebugFmt ε] (b : Extio ε) (op : Op) (a : Args) : Shape ε :=
  match op with
  | .read_file => (b.read_file a.path).shape
  | .write_file => (b.write_file a.path a.data).shape
  | .delete_file => (b.delete_file a.path).shape
  | .list_dir => (b.list_dir a.path).shape
  | .storage_put => (b.storage_put a.key a.data).run.shape
  | .storage_get => (b.storage_get a.key).run.shape
  | .storage_delete => (b.storage_delete a.key).run.shape
  | .http_request => (b.http_request a.req).run.shape
  | .tcp_send => (b.tcp_send a.addr a.data).run.shape
  | .udp_send => (b.udp_send a.addr a.data).run.shape
  | .ws_connect => (b.ws_connect a.url).run.shape
  | .ws_send => (b.ws_send a.data).run.shape
  | .ws_receive => b.ws_receive.run.shape
  | .db_query => (b.db_query a.query a.params).run.shape
  | .db_execute => (b.db_execute a.query a.params).run.shape
  | .exec => (b.exec a.cmd a.argv).run.shape
  | .mq_publish => (b.mq_publish a.topic a.data).run.shape
  | .mq_consume => (b.mq_consume a.topic).run.shape
  | .ipc_send => (b.ipc_send a.channel a.data).run.shape
  | .ipc_receive => (b.ipc_receive a.channel).run.shape
  | .now => (b.now a.wall).shape
  | .sleep => (b.sleep a.dur).run.shape
  | .get_env => (b.get_env a.envKey).shape
  | .set_env => (b.set_env a.envKey a.envVal).shape
  | .log => (b.log a.level a.msg).shape
  | .record_metric => (b.record_metric a.metricName a.metricValue).shape
  | .get_secret => (b.get_secret a.key).shape
  | .sign => (b.sign a.data).shape
  | .verify => (b.verify a.data a.sig).shape

/-- The sample request built in `main` (src/main.rs lines 63-67): GET on
a fixed URL, no headers, empty body. -/
def cannedReq : HttpRequest :=
  { method := "GET", uri := "https://www.rust-lang.org", headers := [], body := [] }

/-- Concrete arguments for witnesses; the environment key is the one from
the spec's `get_env` scenario. -/
def sampleArgs : Args :=
  { path := "file.txt", data := [1, 2, 3], key := "k", addr := "127.0.0.1:80",
    url := "wss://example", req := cannedReq, query := "SELECT 1", params := [],
    cmd := "ls", argv := [], topic := "t", channel := "c", wall := 1700000000,
    dur := 5, envKey := "NONEXISTENT_KEY_X", envVal := "v", level := "info",
    msg := "hello", metricName := "m", metricValue := 1.0, sig := [9] }

/-- A transport whose build step succeeds and whose execution returns a
fixed 200 response with one header and body bytes `[104, 105]`. -/
def cannedTransport : Transport :=
  { buildFails := fun _ => false,
    execute := fun _ => Except.ok
      { status := 200, headers := [("content-type", "text/html")],
        bytes := Except.ok [104, 105] } }

/-- A transport whose build step always fails. -/
def failTransport : Transport :=
  { buildFails := fun _ => true, execute := fun _ => Except.error () }

/-- A backend whose `get_secret` reports a genuine failure through the
error channel. -/
def errExtio : Extio MyError :=
  { get_secret := fun _ => Outcome.err MyError.Reqwest }

/-- A `PanicOr` result (return type without `Result`) can never have the
shape of an error-channel value. -/
theorem PanicOr.shape_ne_err {ε α : Type} (p : PanicOr α) (e : ε) :
    PanicOr.shape p ≠ Shape.err e := by
  cases p <;> simp [PanicOr.shape]

/-- A `PanicOr` result either completed normally or panicked. -/
theorem PanicOr.shape_ok_or_panic (ε α : Type) (p : PanicOr α) :
    @PanicOr.shape ε α p = Shape.ok ∨ ∃ m, @PanicOr.shape ε α p = Shape.panic m := by
  cases p with
  | panic m => exact Or.inr ⟨m, rfl⟩
  | ok a => exact Or.inl rfl

/-- A panic shape is never an error-channel shape. -/
theorem Shape.panic_ne_err {ε : Type} (m : String) (e : ε) :
    Shape.panic m ≠ Shape.err e := by simp

/-- Folding the header-append step of the response builder over a header
list appends exactly that list, in order. -/
theorem rebuild_foldl_headers (l : List (String × String)) (r : HttpResponse) :
    l.foldl (fun r kv => { r with headers := r.headers ++ [kv] }) r =
      { r with headers := r.headers ++ l } := by
  induction l generalizing r with
  | nil => simp
  | cons kv tl ih =>
    simp only [List.foldl_cons, ih]
    simp [List.append_assoc]

/-- The response reassembly of `MyInterface::http_request` reproduces the
transport's status, header list (order included), and body exactly. -/
theorem rebuildResponse_eq (status : Nat) (headers : List (String × String))
    (bytes : List Nat) :
    rebuildResponse status headers bytes =
      { status := status, headers := headers, body := bytes } := by
  simp [rebuildResponse, rebuild_foldl_headers]

/-- C1 counterexample. The claim says an un-overridden operation yields the
"not supported" failure through the backend's error channel and never a
panic. On the concrete input `read_file` against the fully-default
backend, the outcome is the panic `"read_file not implemented"` raised by
the trait's `unimplemented!` default body, and is not a value of the
error channel. -/
theorem unimplemented_default_not_error_value :
    invoke (defaultExtio MyError) Op.read_file sampleArgs =
        Shape.panic "read_file not implemented" ∧
      invoke (defaultExtio MyError) Op.read_file sampleArgs ≠
        Shape.err MyError.Reqwest :=
  ⟨rfl, by decide⟩

/-- C1 (amended). For every operation except `now`, invoking it on a
backend that has not overridden it panics with the explicit message
"<operation> not implemented" naming the operation — never a silent or
disguised success, and never a value through the error channel. -/
theorem unimplemented_default_panics (ε : Type) [DebugFmt ε] (op : Op)
    (a : Args) (hop : op ≠ Op.now) :
    invoke (defaultExtio ε) op a = Shape.panic (opName op ++ " not implemented") := by
  cases op <;> first | rfl | exact absurd rfl hop

/-- C1 witness: the amended theorem applied at `get_secret` on the
fully-default backend. -/
theorem unimplemented_default_panics_witness :
    invoke (defaultExtio MyError) Op.get_secret sampleArgs =
      Shape.panic (opName Op.get_secret ++ " not implemented") :=
  unimplemented_default_panics MyError Op.get_secret sampleArgs (by decide)

/-- C2. On a backend with no override, `now` returns the ambient
wall-clock reading taken at call time, unchanged (so in particular within
every positive delta of true wall-clock time), and its invocation shape is
normal completion — not any "not supported" outcome. -/
theorem now_default_reads_wall_clock (ε : Type) [DebugFmt ε] (wall : Nat)
    (a : Args) :
    (defaultExtio ε).now wall = PanicOr.ok wall ∧
      invoke (defaultExtio ε) Op.now a = Shape.ok :=
  ⟨rfl, rfl⟩

/-- C3 counterexample. The claim says every operation other than the
overridden one (and `now`) still reports the "not supported" failure. On
the concrete input `read_file` against `MyInterface` (which overrides only
`http_request`), the outcome is the panic `"read_file not implemented"`,
not a failure value of the error channel. -/
theorem myinterface_read_file_panics :
    invoke (MyInterface cannedTransport) Op.read_file sampleArgs =
        Shape.panic "read_file not implemented" ∧
      invoke (MyInterface cannedTransport) Op.read_file sampleArgs ≠
        Shape.err MyError.Reqwest :=
  ⟨rfl, by decide⟩

/-- C3 (amended). For `MyInterface`, which overrides exactly
`http_request`, every other operation except `now` still panics with its
"<operation> not implemented" default message, and its outcome is exactly
the outcome of the same operation on the fully-default backend: overriding
one operation changes no other operation. -/
theorem myinterface_other_ops_keep_default (t : Transport) (op : Op)
    (a : Args) (hnow : op ≠ Op.now) (hhttp : op ≠ Op.http_request) :
    invoke (MyInterface t) op a = Shape.panic (opName op ++ " not implemented") ∧
      invoke (MyInterface t) op a = invoke (defaultExtio MyError) op a := by
  cases op <;> first
    | exact absurd rfl hnow
    | exact absurd rfl hhttp
    | exact ⟨rfl, rfl⟩

/-- C3 witness: the amended theorem applied at `storage_get` against
`MyInterface` over the canned transport. -/
theorem myinterface_other_ops_witness :
    invoke (MyInterface cannedTransport) Op.storage_get sampleArgs =
        Shape.panic (opName Op.storage_get ++ " not implemented") ∧
      invoke (MyInterface cannedTransport) Op.storage_get sampleArgs =
        invoke (defaultExtio MyError) Op.storage_get sampleArgs :=
  myinterface_other_ops_keep_default cannedTransport Op.storage_get sampleArgs
    (by decide) (by decide)

/-- C4 counterexample. The claim says `get_env("NONEXISTENT_KEY_X")` on a
backend with no override results in the "not supported" default failure.
It does not: it panics with `"get_env not implemented"` (the return type
`Option<String>` has no error channel at all, so no failure value exists
for it). -/
theorem get_env_default_not_failure_value :
    (defaultExtio MyError).get_env "NONEXISTENT_KEY_X" =
        PanicOr.panic "get_env not implemented" ∧
      invoke (defaultExtio MyError) Op.get_env sampleArgs ≠
        Shape.err MyError.Reqwest :=
  ⟨rfl, by decide⟩

/-- C4 (amended). On a backend with no override, `get_env` panics with
"get_env not implemented" — for every key, with the same result, so the
outcome consults no operating-system environment (the model's `get_env`
takes no environment input besides the key). -/
theorem get_env_default_panics_all_keys (ε : Type) [DebugFmt ε] (key : String) :
    (defaultExtio ε).get_env key = PanicOr.panic "get_env not implemented" :=
  rfl

/-- C5. Every backend carries exactly one associated error type `ε`
(the single error parameter of `Extio`, bound by `DebugFmt` as the trait
bounds `Error` by `Debug`), and any error value any operation of any
backend ever surfaces travels through that one channel: an `err`-shaped
outcome can only arise from an operation whose declared return type has
the associated error channel. -/
theorem errors_flow_through_single_channel (ε : Type) [DebugFmt ε]
    (b : Extio ε) (op : Op) (a : Args) (e : ε)
    (h : invoke b op a = Shape.err e) :
    hasErrorChannel op = true := by
  cases op <;> first
    | rfl
    | exact absurd h (PanicOr.shape_ne_err _ e)

/-- C5 witness: a backend whose `get_secret` reports
`Err(MyError::Reqwest)`; the theorem applied there. -/
theorem errors_single_channel_witness : hasErrorChannel Op.get_secret = true :=
  errors_flow_through_single_channel MyError errExtio Op.get_secret sampleArgs
    MyError.Reqwest rfl

/-- C6. The unsupported-operation outcome is distinguishable from every
backend-specific failure: for every operation except `now`, the outcome on
a backend that has not overridden it (a panic carrying the "not
implemented" message) is distinct from the error-channel outcome for every
value of the backend's error type. -/
theorem unsupported_outcome_distinguishable (ε : Type) [DebugFmt ε]
    (op : Op) (a : Args) (e : ε) (hop : op ≠ Op.now) :
    invoke (defaultExtio ε) op a ≠ Shape.err e := by
  cases op <;> first
    | exact absurd rfl hop
    | exact Shape.panic_ne_err _ e

/-- C6 witness: the theorem applied at `storage_put` with the error value
`MyError::Reqwest`. -/
theorem unsupported_outcome_distinguishable_witness :
    invoke (defaultExtio MyError) Op.storage_put sampleArgs ≠
      Shape.err MyError.Reqwest :=
  unsupported_outcome_distinguishable MyError Op.storage_put sampleArgs
    MyError.Reqwest (by decide)

/-- C7. Round trip of the reference HTTP backend: whenever the transport's
build step succeeds and execution returns a response whose body bytes are
collected successfully, `MyInterface`'s `http_request` returns a response
whose status, header list (same pairs, same order) and body bytes are
exactly what the transport returned — no loss, no reordering. -/
theorem http_request_round_trip (t : Transport) (req : HttpRequest)
    (resp : TransportResponse) (bs : List Nat)
    (hbuild : t.buildFails (buildReqwest req) = false)
    (hexec : t.execute (buildReqwest req) = Except.ok resp)
    (hbytes : resp.bytes = Except.ok bs) :
    ((MyInterface t).http_request req).run =
      Outcome.ok { status := resp.status, headers := resp.headers, body := bs } := by
  show MyInterface.http_request t req = _
  simp [MyInterface.http_request, hbuild, hexec, hbytes, rebuildResponse_eq]

/-- C7 witness: the theorem applied to the canned transport's fixed 200
response with one header and body bytes `[104, 105]`. -/
theorem http_request_round_trip_witness :
    ((MyInterface cannedTransport).http_request cannedReq).run =
      Outcome.ok { status := 200, headers := [("content-type", "text/html")],
                   body := [104, 105] } :=
  http_request_round_trip cannedTransport cannedReq
    { status := 200, headers := [("content-type", "text/html")],
      bytes := Except.ok [104, 105] }
    [104, 105] rfl rfl rfl

/-- C8. The suspension classification fixed by the trait declaration
(`async fn` versus plain `fn` in src/lib.rs, the same for every backend
since it is part of the one trait declaration) agrees with the spec's
section 4.1 table on every operation; in particular `http_request` is
suspension-required and `read_file` is blocking-safe. -/
theorem suspension_classification_matches_spec :
    ∀ op : Op, contractSuspension op = specSuspension op := by
  intro op
  cases op <;> rfl

/-- C9. The operations `sleep`, `set_env`, `log` and `record_metric` have
no failure channel: their declared return types carry no error value, so
on every backend (whatever it overrides) each of the four can only
complete normally or panic, and an error-channel outcome is not
expressible for them. -/
theorem effect_ops_have_no_error_channel (ε : Type) [DebugFmt ε]
    (b : Extio ε) (a : Args) (e : ε) :
    (hasErrorChannel Op.sleep = false ∧ invoke b Op.sleep a ≠ Shape.err e ∧
      (invoke b Op.sleep a = Shape.ok ∨
        ∃ m, invoke b Op.sleep a = Shape.panic m)) ∧
    (hasErrorChannel Op.set_env = false ∧ invoke b Op.set_env a ≠ Shape.err e ∧
      (invoke b Op.set_env a = Shape.ok ∨
        ∃ m, invoke b Op.set_env a = Shape.panic m)) ∧
    (hasErrorChannel Op.log = false ∧ invoke b Op.log a ≠ Shape.err e ∧
      (invoke b Op.log a = Shape.ok ∨
        ∃ m, invoke b Op.log a = Shape.panic m)) ∧
    (hasErrorChannel Op.record_metric = false ∧
      invoke b Op.record_metric a ≠ Shape.err e ∧
      (invoke b Op.record_metric a = Shape.ok ∨
        ∃ m, invoke b Op.record_metric a = Shape.panic m)) :=
  ⟨⟨rfl, PanicOr.shape_ne_err _ e, PanicOr.shape_ok_or_panic ε _ _⟩,
   ⟨rfl, PanicOr.shape_ne_err _ e, PanicOr.shape_ok_or_panic ε _ _⟩,
   ⟨rfl, PanicOr.shape_ne_err _ e, PanicOr.shape_ok_or_panic ε _ _⟩,
   ⟨rfl, PanicOr.shape_ne_err _ e, PanicOr.shape_ok_or_panic ε _ _⟩⟩

/-- C9 witness: the theorem applied to the fully-default backend and the
error value `MyError::Reqwest`, read off at `sleep`. -/
theorem effect_ops_no_error_channel_witness :
    hasErrorChannel Op.sleep = false ∧
      invoke (defaultExtio MyError) Op.sleep sampleArgs ≠
        Shape.err MyError.Reqwest :=
  ⟨(effect_ops_have_no_error_channel MyError (defaultExtio MyError) sampleArgs
      MyError.Reqwest).1.1,
   (effect_ops_have_no_error_channel MyError (defaultExtio MyError) sampleArgs
      MyError.Reqwest).1.2.1⟩

/-- C10. In `MyInterface::http_request`, each distinct failure stage —
request build failure, transport execution failure, and body-collection
failure — produces the same result `Err(MyError::Reqwest)`, and every
error the call can ever return equals `MyError::Reqwest`, so the caller
cannot tell the stages apart. -/
theorem http_request_errors_collapse_to_reqwest (t : Transport)
    (req : HttpRequest) :
    (t.buildFails (buildReqwest req) = true →
      MyInterface.http_request t req = Outcome.err MyError.Reqwest) ∧
    (∀ u : Unit, t.execute (buildReqwest req) = Except.error u →
      MyInterface.http_request t req = Outcome.err MyError.Reqwest) ∧
    (∀ (resp : TransportResponse) (u : Unit),
      t.execute (buildReqwest req) = Except.ok resp →
      resp.bytes = Except.error u →
      MyInterface.http_request t req = Outcome.err MyError.Reqwest) ∧
    (∀ e : MyError, MyInterface.http_request t req = Outcome.err e →
      e = MyError.Reqwest) := by
  refine ⟨?_, ?_, ?_, ?_⟩
  · intro h
    simp [MyInterface.http_request, h]
  · intro u h
    cases hb : t.buildFails (buildReqwest req) <;>
      simp [MyInterface.http_request, hb, h]
  · intro resp u hexec hbytes
    cases hb : t.buildFails (buildReqwest req) <;>
      simp [MyInterface.http_request, hb, hexec, hbytes]
  · intro e h
    cases e
    rfl

/-- C10 witness: the theorem's build-failure branch applied to a transport
whose build step always fails. -/
theorem http_request_errors_collapse_witness :
    MyInterface.http_request failTransport cannedReq =
      Outcome.err MyError.Reqwest :=
  (http_request_errors_collapse_to_reqwest failTransport cannedReq).1 rfl
